import Mathlib

/-!
Shallow embedding of the vvcC (VVC decoder configuration record) codec of
`libavformat/vvc.c`, together with theorems settling the frozen claims about it.

Modelling conventions:
* C unsigned integers are modelled as `Nat`; assignments that truncate in C
  (`uint8_t`, `uint16_t` stores) carry an explicit `% 256` / `% 65536` where the
  stored value can exceed the field width in the source's data flow.
* Byte buffers are `List Nat` (each element one byte), bit streams are `List Nat`
  (each element one bit).
* Fallible operations return `Except AVError _` or `Option _`.  A C execution
  whose behavior is undefined (out-of-range shift, write of uninitialized
  memory) is modelled as the error `AVError.undefinedBehavior`.
* Pointer-indexed arrays become `List Nat` with `List.getD _ _ 0` reads and
  `List.set` writes, abstracting the flat memory of the C program.
-/

/-- Error kinds of the embedded code: `invalidData` models `AVERROR_INVALIDDATA`;
`undefinedBehavior` marks a path whose C semantics is undefined. -/
inductive AVError where
  | invalidData
  | undefinedBehavior
deriving DecidableEq, Repr

/-- Modelled from the spec: NAL unit type code for OPI from the missing header
`libavcodec/vvc.h` (`VVC_OPI_NUT`), per the VVC NAL unit type table. -/
def VVC_OPI_NUT : Nat := 12

/-- Modelled from the spec: NAL unit type code for DCI from the missing header
`libavcodec/vvc.h` (`VVC_DCI_NUT`). -/
def VVC_DCI_NUT : Nat := 13

/-- Modelled from the spec: NAL unit type code for VPS from the missing header
`libavcodec/vvc.h` (`VVC_VPS_NUT`). -/
def VVC_VPS_NUT : Nat := 14

/-- Modelled from the spec: NAL unit type code for SPS from the missing header
`libavcodec/vvc.h` (`VVC_SPS_NUT`). -/
def VVC_SPS_NUT : Nat := 15

/-- Modelled from the spec: NAL unit type code for PPS from the missing header
`libavcodec/vvc.h` (`VVC_PPS_NUT`). -/
def VVC_PPS_NUT : Nat := 16

/-- Modelled from the spec: implementation limit on the number of video parameter
sets (`VVC_MAX_VPS_COUNT` of the missing header `libavcodec/vvc.h`, 16 per VVC). -/
def VVC_MAX_VPS_COUNT : Nat := 16

/-- Modelled from the spec: implementation limit on the number of sequence
parameter sets (`VVC_MAX_SPS_COUNT` of the missing header `libavcodec/vvc.h`,
16 per VVC). -/
def VVC_MAX_SPS_COUNT : Nat := 16

/-- One NAL-unit array of the configuration record (`VVCCNALUnitArray`).
`numNalus` is the `uint16_t` counter of the source; the per-NAL length table and
payload table are the two parallel arrays `nalUnitLength` / `nalUnit`. -/
structure VVCCNALUnitArray where
  array_completeness : Nat
  NAL_unit_type : Nat
  numNalus : Nat
  nalUnitLength : List Nat
  nalUnit : List (List Nat)
deriving DecidableEq, Repr

/-- The configuration record (`VVCDecoderConfigurationRecord`).  The source
keeps a separate `numOfArrays` counter always equal to the length of `array`;
here the list length plays that role.  `general_constraint_info` is the byte
buffer the source manipulates through `*vvcc->general_constraint_info` (it only
ever reads and writes its first byte). -/
structure VVCDecoderConfigurationRecord where
  lengthSizeMinusOne : Nat
  ptl_present_flag : Nat
  ols_idx : Nat
  num_sublayers : Nat
  constant_frame_rate : Nat
  chroma_format_idc : Nat
  bit_depth_minus8 : Nat
  num_bytes_constraint_info : Nat
  general_profile_idc : Nat
  general_tier_flag : Nat
  general_level_idc : Nat
  ptl_frame_only_constraint_flag : Nat
  ptl_multilayer_enabled_flag : Nat
  general_constraint_info : List Nat
  ptl_sublayer_level_present_flag : List Nat
  sublayer_level_idc : List Nat
  num_sub_profiles : Nat
  general_sub_profile_idc : List Nat
  max_picture_width : Nat
  max_picture_height : Nat
  avg_frame_rate : Nat
  array : List VVCCNALUnitArray
deriving DecidableEq, Repr

/-- An incoming profile-tier-level record (`VVCCProfileTierLevel`). -/
structure VVCCProfileTierLevel where
  profile_idc : Nat
  tier_flag : Nat
  general_level_idc : Nat
  ptl_frame_only_constraint_flag : Nat
  ptl_multilayer_enabled_flag : Nat
  gci_present_flag : Nat
  gci_general_constraints : Nat
  gci_num_reserved_bits : Nat
  ptl_sublayer_level_present_flag : List Nat
  sublayer_level_idc : List Nat
  ptl_num_sub_profiles : Nat
  general_sub_profile_idc : List Nat
deriving DecidableEq, Repr

/-- `vvcc_init`: `memset(vvcc, 0, sizeof(*vvcc))`, then `lengthSizeMinusOne = 3`,
`num_bytes_constraint_info = 1`, `ptl_present_flag = 1`.  All other fields are
zero / empty; in particular `ptl_frame_only_constraint_flag` and
`ptl_multilayer_enabled_flag` start at 0. -/
def vvcc_init : VVCDecoderConfigurationRecord where
  lengthSizeMinusOne := 3
  ptl_present_flag := 1
  ols_idx := 0
  num_sublayers := 0
  constant_frame_rate := 0
  chroma_format_idc := 0
  bit_depth_minus8 := 0
  num_bytes_constraint_info := 1
  general_profile_idc := 0
  general_tier_flag := 0
  general_level_idc := 0
  ptl_frame_only_constraint_flag := 0
  ptl_multilayer_enabled_flag := 0
  general_constraint_info := []
  ptl_sublayer_level_present_flag := []
  sublayer_level_idc := []
  num_sub_profiles := 0
  general_sub_profile_idc := []
  max_picture_width := 0
  max_picture_height := 0
  avg_frame_rate := 0
  array := []

/-- One iteration of the sublayer loop of `vvcc_update_ptl` (vvc.c:153-164) at
index `i`: OR the incoming present flag into the record's, then either max the
level in (flag set) or inherit it (flag clear) — from `general_level_idc` when
`i == num_sublayers - 1`, otherwise from entry `i + 1`. -/
def sublayer_step (n glevel : Nat) (incP incL : List Nat)
    (s : List Nat × List Nat) (i : Nat) : List Nat × List Nat :=
  let p := (s.1.getD i 0) ||| (incP.getD i 0)
  let pres := s.1.set i p
  let lev :=
    if p ≠ 0 then s.2.set i (max (s.2.getD i 0) (incL.getD i 0))
    else if i = n - 1 then s.2.set i glevel
    else s.2.set i (s.2.getD (i + 1) 0)
  (pres, lev)

/-- The descending sublayer loop of `vvcc_update_ptl`: `sublayer_go … k s`
processes indices `k-1, k-2, …, 0` (the C loop `for(i = n-2; i >= 0; i--)`
corresponds to `k = n - 1`). -/
def sublayer_go (n glevel : Nat) (incP incL : List Nat) :
    Nat → List Nat × List Nat → List Nat × List Nat
  | 0, s => s
  | k + 1, s => sublayer_go n glevel incP incL k (sublayer_step n glevel incP incL s k)

/-- The whole sublayer loop of `vvcc_update_ptl` (vvc.c:153-164); for
`n ≤ 1` the C loop body never runs. -/
def sublayer_update (n glevel : Nat) (incP incL : List Nat)
    (s : List Nat × List Nat) : List Nat × List Nat :=
  sublayer_go n glevel incP incL (n - 1) s

/-- The sub-profile copy loop of `vvcc_update_ptl` (vvc.c:167-169): entries
`0 … nsp-1` of the record's array are overwritten with the incoming PTL's. -/
def sub_profile_copy (nsp : Nat) (inc old : List Nat) : List Nat :=
  (List.range nsp).foldl (fun acc i => acc.set i (inc.getD i 0)) old

/-- `vvcc_update_ptl` (vvc.c:89-170).  Tier/level/profile aggregation, the AND
of the two constraint flags, the constraint-info block, the sublayer loop and
the sub-profile copy.  The `gci_present_flag` branch of the source
(vvc.c:136-141) left-shifts a value of type `int` by 71 and by
`8*ceil(gci_num_reserved_bits/8)` more bits while assigning through a single
`uint8_t`; those shifts exceed the promoted type's width, so that branch has no
defined C semantics and is modelled as `none`.  The `else` branch stores the
single byte `0x00` and sets `num_bytes_constraint_info = 1`. -/
def vvcc_update_ptl (vvcc : VVCDecoderConfigurationRecord)
    (ptl : VVCCProfileTierLevel) : Option VVCDecoderConfigurationRecord :=
  let level1 :=
    if vvcc.general_tier_flag < ptl.tier_flag then ptl.general_level_idc
    else max vvcc.general_level_idc ptl.general_level_idc
  let tier1 := max vvcc.general_tier_flag ptl.tier_flag
  let profile1 := max vvcc.general_profile_idc ptl.profile_idc
  let fo1 := vvcc.ptl_frame_only_constraint_flag &&& ptl.ptl_frame_only_constraint_flag
  let ml1 := vvcc.ptl_multilayer_enabled_flag &&& ptl.ptl_multilayer_enabled_flag
  if ptl.gci_present_flag ≠ 0 then none
  else
    let subl := sublayer_update vvcc.num_sublayers level1
      ptl.ptl_sublayer_level_present_flag ptl.sublayer_level_idc
      (vvcc.ptl_sublayer_level_present_flag, vvcc.sublayer_level_idc)
    let nsp := max vvcc.num_sub_profiles ptl.ptl_num_sub_profiles
    some { vvcc with
      general_level_idc := level1
      general_tier_flag := tier1
      general_profile_idc := profile1
      ptl_frame_only_constraint_flag := fo1
      ptl_multilayer_enabled_flag := ml1
      num_bytes_constraint_info := 1
      general_constraint_info := [0]
      ptl_sublayer_level_present_flag := subl.1
      sublayer_level_idc := subl.2
      num_sub_profiles := nsp
      general_sub_profile_idc := sub_profile_copy nsp ptl.general_sub_profile_idc
        vvcc.general_sub_profile_idc }

/-- Repeatedly apply `vvcc_update_ptl`, the way parsing a sequence of parameter
sets feeds every contained PTL into the record. -/
def vvcc_aggregate (v : VVCDecoderConfigurationRecord)
    (ptls : List VVCCProfileTierLevel) : Option VVCDecoderConfigurationRecord :=
  ptls.foldlM vvcc_update_ptl v

/-- `avio_w8`: emit the low byte of the value. -/
def avio_w8 (v : Nat) : List Nat := [v % 256]

/-- `avio_wb16`: emit the low 16 bits of the value, big-endian. -/
def avio_wb16 (v : Nat) : List Nat := [v / 2 ^ 8 % 256, v % 256]

/-- `avio_wb32`: emit the low 32 bits of the value, big-endian. -/
def avio_wb32 (v : Nat) : List Nat :=
  [v / 2 ^ 24 % 256, v / 2 ^ 16 % 256, v / 2 ^ 8 % 256, v % 256]

/-- The counting pass of `vvcc_write` (vvc.c:760-773) for one NAL unit type:
sum `numNalus` over the arrays of that type into a `uint16_t` counter. -/
def nal_type_count (t : Nat) (arrs : List VVCCNALUnitArray) : Nat :=
  arrs.foldl (fun acc a => if a.NAL_unit_type = t then (acc + a.numNalus) % 65536 else acc) 0

/-- The `ptl_sublayer_level_present_flags` byte of `vvcc_write` (vvc.c:824-828):
fold the flags in descending index order into a `uint8_t`. -/
def sublayer_flags_byte (n : Nat) (flags : List Nat) : Nat :=
  (List.range (n - 1)).foldl (fun acc k => (acc * 2 ||| flags.getD (n - 2 - k) 0) % 256) 0

/-- The conditional `sublayer_level_idc` bytes of `vvcc_write` (vvc.c:831-834),
emitted in descending index order `n-2 … 0` when the present flag is set. -/
def sublayer_level_bytes (n : Nat) (flags levels : List Nat) : List Nat :=
  (List.range (n - 1)).foldr
    (fun k acc => (if flags.getD (n - 2 - k) 0 ≠ 0 then [levels.getD (n - 2 - k) 0 % 256] else []) ++ acc)
    []

/-- The per-array serialization of `vvcc_write` (vvc.c:863-881): header byte,
the `numNalus` field unless the array holds DCI or OPI units, then each NAL as a
16-bit length followed by `nalUnitLength[j]` bytes of its payload (the source
reads that many bytes from the stored pointer; the model reads them from the
stored list). -/
def nal_array_bytes (a : VVCCNALUnitArray) : List Nat :=
  avio_w8 (a.array_completeness <<< 7 ||| (a.NAL_unit_type &&& 0x1f)) ++
  (if a.NAL_unit_type ≠ VVC_DCI_NUT ∧ a.NAL_unit_type ≠ VVC_OPI_NUT
    then avio_wb16 a.numNalus else []) ++
  (List.range a.numNalus).foldr
    (fun j acc =>
      avio_wb16 (a.nalUnitLength.getD j 0) ++
      (a.nalUnit.getD j []).take (a.nalUnitLength.getD j 0) ++ acc)
    []

/-- The VvcPTLRecord block plus the three trailing 16-bit fields of
`vvcc_write` (vvc.c:783-857), emitted when `ptl_present_flag` is set.  The
constraint-info write (vvc.c:812-814) stores
`frame_only << 8n-1 | multilayer << 8n-2 | gci[0] >> 2` into a native `int` and
writes `num_bytes_constraint_info` bytes of that buffer; for the only case with
defined semantics, `n = 1`, this is the single byte below (the low byte of the
int on a little-endian host).  `vvcc_write` guards this block accordingly. -/
def ptl_block_bytes (v : VVCDecoderConfigurationRecord) : List Nat :=
  avio_wb16 (v.ols_idx <<< 7 ||| v.num_sublayers <<< 4 |||
    v.constant_frame_rate <<< 2 ||| v.chroma_format_idc) ++
  avio_w8 (v.bit_depth_minus8 <<< 5 ||| 0x1f) ++
  avio_w8 (v.num_bytes_constraint_info &&& 0x3f) ++
  avio_w8 (v.general_profile_idc <<< 1 ||| v.general_tier_flag) ++
  avio_w8 v.general_level_idc ++
  [(v.ptl_frame_only_constraint_flag <<< (v.num_bytes_constraint_info * 8 - 1) |||
    v.ptl_multilayer_enabled_flag <<< (v.num_bytes_constraint_info * 8 - 2) |||
    (v.general_constraint_info.getD 0 0) >>> 2) % 256] ++
  (if 1 < v.num_sublayers
    then avio_w8 (sublayer_flags_byte v.num_sublayers v.ptl_sublayer_level_present_flag)
    else []) ++
  sublayer_level_bytes v.num_sublayers v.ptl_sublayer_level_present_flag v.sublayer_level_idc ++
  avio_w8 v.num_sub_profiles ++
  (List.range v.num_sub_profiles).foldr
    (fun j acc => avio_wb32 (v.general_sub_profile_idc.getD j 0) ++ acc) [] ++
  avio_wb16 v.max_picture_width ++
  avio_wb16 v.max_picture_height ++
  avio_wb16 v.avg_frame_rate

/-- `vvcc_write` (vvc.c:696-884).  First forces `avg_frame_rate = 0` and
`constant_frame_rate = 1`, then counts VPS/SPS NAL units and fails with
`AVERROR_INVALIDDATA` — before emitting anything — unless there is at least one
of each and neither count exceeds its limit.  On success emits the header byte
`lengthSizeMinusOne << 1 | ptl_present_flag | 0xf8`, the PTL block when
`ptl_present_flag` is set, the `numOfArrays` byte and the arrays.  A record
whose `num_bytes_constraint_info` differs from 1 reaches the undefined
constraint-info write described at `ptl_block_bytes` (in the source's data flow
such records have `num_bytes_constraint_info ≥ 10` from the `gci_present`
branch of `vvcc_update_ptl`, where the write shifts an `int` by 79 bits and
emits uninitialized memory); this is modelled as `undefinedBehavior`. -/
def vvcc_write (v0 : VVCDecoderConfigurationRecord) : Except AVError (List Nat) :=
  let v := { v0 with avg_frame_rate := 0, constant_frame_rate := 1 }
  let vps_count := nal_type_count VVC_VPS_NUT v.array
  let sps_count := nal_type_count VVC_SPS_NUT v.array
  if vps_count = 0 ∨ VVC_MAX_VPS_COUNT < vps_count ∨
     sps_count = 0 ∨ VVC_MAX_SPS_COUNT < sps_count then
    .error .invalidData
  else if v.ptl_present_flag ≠ 0 then
    if v.num_bytes_constraint_info = 1 then
      .ok (avio_w8 (v.lengthSizeMinusOne <<< 1 ||| v.ptl_present_flag ||| 0xf8) ++
        ptl_block_bytes v ++
        avio_w8 v.array.length ++
        v.array.foldr (fun a acc => nal_array_bytes a ++ acc) [])
    else
      .error .undefinedBehavior
  else
    .ok (avio_w8 (v.lengthSizeMinusOne <<< 1 ||| v.ptl_present_flag ||| 0xf8) ++
      avio_w8 v.array.length ++
      v.array.foldr (fun a acc => nal_array_bytes a ++ acc) [])

/-- `AV_RB32` at the head of a byte buffer: 32-bit big-endian read. -/
def rb32 (l : List Nat) : Nat :=
  l.getD 0 0 * 2 ^ 24 + l.getD 1 0 * 2 ^ 16 + l.getD 2 0 * 2 ^ 8 + l.getD 3 0

/-- `AV_RB24` at the head of a byte buffer: 24-bit big-endian read. -/
def rb24 (l : List Nat) : Nat :=
  l.getD 0 0 * 2 ^ 16 + l.getD 1 0 * 2 ^ 8 + l.getD 2 0

/-- The `switch(type)` test of the parameter-set filter in `ff_vvc_annexb2mp4`
(vvc.c:911-916): VPS, SPS and PPS units are the filtered ones. -/
def is_ps_nal_type (t : Nat) : Bool :=
  t == VVC_VPS_NUT || t == VVC_SPS_NUT || t == VVC_PPS_NUT

/-- The scanning loop of `ff_vvc_annexb2mp4` (vvc.c:905-925) over a 4-byte
length-prefixed buffer, with an explicit fuel argument to make the recursion
structural; each iteration consumes at least 4 bytes, so any fuel of at least
the buffer length yields the loop's behavior (`annexb_loop` below instantiates
it that way).  Per iteration: while more than 4 bytes remain, read the 32-bit
big-endian length, clip it to the remaining bytes
(`len = FFMIN(AV_RB32(buf), end - buf - 4)`), read the NAL type from byte 5;
parameter-set NALs are counted, every other NAL is re-emitted as
`wb32(len)` plus `len` payload bytes while the running return value grows by
`4 + len`.  Result: (emitted bytes, return value, `num_ps`). -/
def annexb_loop_fuel : Nat → List Nat → List Nat × Nat × Nat
  | 0, _ => ([], 0, 0)
  | fuel + 1, l =>
    if 4 < l.length then
      let len := min (rb32 l) (l.length - 4)
      let typ := l.getD 5 0 / 8
      let rest := l.drop 4
      if is_ps_nal_type typ then
        let r := annexb_loop_fuel fuel (rest.drop len)
        (r.1, r.2.1, r.2.2 + 1)
      else
        let r := annexb_loop_fuel fuel (rest.drop len)
        (avio_wb32 len ++ rest.take len ++ r.1, 4 + len + r.2.1, r.2.2)
    else ([], 0, 0)

/-- The scanning loop of `ff_vvc_annexb2mp4` (vvc.c:905-925). -/
def annexb_loop (l : List Nat) : List Nat × Nat × Nat :=
  annexb_loop_fuel l.length l

/-- Leading start-code test, 3-byte form `00 00 01`. -/
def starts_sc3 : List Nat → Bool
  | 0 :: 0 :: 1 :: _ => true
  | _ => false

/-- Leading start-code test, 4-byte form `00 00 00 01`. -/
def starts_sc4 : List Nat → Bool
  | 0 :: 0 :: 0 :: 1 :: _ => true
  | _ => false

/-- Modelled from the spec: the NAL-unit splitter behind
`ff_avc_parse_nal_units_buf` (`libavformat/avc.c`, not under `src/`).  Scans a
buffer positioned just after a start code; the current NAL unit ends at the
next `00 00 00 01` / `00 00 01` start code or at the end of input.  Fuel-based
structural recursion (`fuel = length` suffices: every step consumes input). -/
def split_nals_go : Nat → List Nat → List Nat → List (List Nat)
  | 0, cur, l => [cur.reverse ++ l]
  | fuel + 1, cur, l =>
    if starts_sc4 l then cur.reverse :: split_nals_go fuel [] (l.drop 4)
    else if starts_sc3 l then cur.reverse :: split_nals_go fuel [] (l.drop 3)
    else match l with
      | [] => [cur.reverse]
      | b :: rest => split_nals_go fuel (b :: cur) rest

/-- Modelled from the spec: split a buffer (positioned just after its leading
start code) into its NAL units. -/
def split_nals (l : List Nat) : List (List Nat) :=
  split_nals_go l.length [] l

/-- Rewrite a list of NAL units as 4-byte big-endian-length-prefixed bytes. -/
def mp4_concat (nals : List (List Nat)) : List Nat :=
  nals.foldr (fun nal acc => avio_wb32 nal.length ++ nal ++ acc) []

/-- Modelled from the spec: `ff_avc_parse_nal_units_buf` (`libavformat/avc.c`,
not under `src/`) — rewrites a start-code-delimited Annex-B buffer as a
sequence of 4-byte big-endian length-prefixed NAL units; fails unless the
buffer begins with a `00 00 01` or `00 00 00 01` start code. -/
def ff_avc_parse_nal_units_buf (l : List Nat) : Option (List Nat) :=
  if starts_sc4 l then some (mp4_concat (split_nals (l.drop 4)))
  else if starts_sc3 l then some (mp4_concat (split_nals (l.drop 3)))
  else none

/-- `ff_vvc_annexb2mp4` (vvc.c:886-932) in its `filter_ps` mode: convert the
Annex-B input to length-prefixed form via `ff_avc_parse_nal_units_buf`, then
run the filtering loop.  (With `filter_ps == 0` the source delegates entirely
to `ff_avc_parse_nal_units`, which is not under `src/`.)  Result on success:
(bytes written to `pb`, return value, `*ps_count`). -/
def ff_vvc_annexb2mp4_filter (buf_in : List Nat) : Option (List Nat × Nat × Nat) :=
  match ff_avc_parse_nal_units_buf buf_in with
  | none => none
  | some start => some (annexb_loop start)

/-- `ff_isom_write_vvcc` (vvc.c:955-1014), top-level dispatch.  The Annex-B
parsing pipeline behind the final branch (start-code conversion, per-NAL
`vvcc_add_nal_unit`, `vvcc_write`) is abstracted as the parameter `rest`: the
claims settled against this definition hold for every such continuation, i.e.
they are decided by the dispatch alone.  `data.getD 0 0 = 1` is `*data == 1`
(well-defined here since the size check guarantees 6 bytes); on the
pass-through branch the whole input is written to `pb` unchanged. -/
def ff_isom_write_vvcc (rest : List Nat → Except AVError (List Nat))
    (data : List Nat) : Except AVError (List Nat) :=
  if data.length < 6 then .error .invalidData
  else if data.getD 0 0 = 1 then .ok data
  else if ¬(rb24 data = 1 ∨ rb32 data = 1) then .error .invalidData
  else rest data

/-- The bit reader (`GetBitContext`): a bit list and a cursor.  Reads past the
end of concrete streams return 0 bits; every theorem below evaluates it within
bounds. -/
structure GetBitContext where
  bits : List Nat
  index : Nat
deriving DecidableEq, Repr

/-- `get_bits1`: read one bit. -/
def get_bits1 (gb : GetBitContext) : Nat × GetBitContext :=
  (gb.bits.getD gb.index 0, { gb with index := gb.index + 1 })

/-- `get_bits(gb, n)`: read `n` bits MSB-first. -/
def get_bits (gb : GetBitContext) (n : Nat) : Nat × GetBitContext :=
  (((gb.bits.drop gb.index).take n).foldl (fun a b => 2 * a + b) 0,
   { gb with index := gb.index + n })

/-- The byte-alignment loop `while(gb->index % 8 != 0) skip_bits1(gb)`
(vvc.c:205-206), by its effect on the cursor. -/
def align8 (gb : GetBitContext) : GetBitContext :=
  { gb with index := gb.index + (8 - gb.index % 8) % 8 }

/-- Read `m` single bits in sequence (stream order), as in the descending flag
loop of `vvcc_parse_ptl`: the first bit read lands at array index `m-1`. -/
def read_bits_list : GetBitContext → Nat → List Nat × GetBitContext
  | gb, 0 => ([], gb)
  | gb, k + 1 =>
    let r1 := get_bits1 gb
    let rr := read_bits_list r1.2 k
    (r1.1 :: rr.1, rr.2)

/-- Read `m` bytes (8-bit fields) in sequence (stream order). -/
def read_bytes_list : GetBitContext → Nat → List Nat × GetBitContext
  | gb, 0 => ([], gb)
  | gb, k + 1 =>
    let r1 := get_bits gb 8
    let rr := read_bytes_list r1.2 k
    (r1.1 :: rr.1, rr.2)

/-- Lines 201-211 of `vvcc_parse_ptl`: the per-sublayer section.  For `i` from
`max_sub_layers_minus1 - 1` down to 0 read the 1-bit
`ptl_sublayer_level_present_flag[i]`; align to a byte boundary; then for the
same indices descending read an 8-bit `sublayer_level_idc[i]` — the source
performs this second read unconditionally, with no test of the present flag.
Returns (present flags indexed ascending, level idcs indexed ascending, reader
state). -/
def vvcc_parse_ptl_sublayers (gb : GetBitContext) (m : Nat) :
    List Nat × List Nat × GetBitContext :=
  let rf := read_bits_list gb m
  let flags := rf.1.reverse
  let gb2 := align8 rf.2
  let rl := read_bytes_list gb2 m
  (flags, rl.1.reverse, rl.2)

/-- The tier/level component of `vvcc_update_ptl` (vvc.c:97-106) iterated over a
list of PTLs, acting on the pair (general_tier_flag, general_level_idc). -/
def run_tl (s : Nat × Nat) (ptls : List VVCCProfileTierLevel) : Nat × Nat :=
  ptls.foldl (fun s p =>
    (max s.1 p.tier_flag,
     if s.1 < p.tier_flag then p.general_level_idc else max s.2 p.general_level_idc)) s

/-- Maximum of the `general_level_idc` fields of a list of PTLs (0 if empty). -/
def level_max (ptls : List VVCCProfileTierLevel) : Nat :=
  ptls.foldl (fun a p => max a p.general_level_idc) 0

/-- A PTL with the given tier, level and constraint flags, without
general-constraint info, sublayer data or sub-profiles. -/
def mkPtl (t l fo ml : Nat) : VVCCProfileTierLevel :=
  ⟨0, t, l, fo, ml, 0, 0, 0, [], [], 0, []⟩

/-- A NAL-unit array holding a single 2-byte VPS. -/
def vpsArr : VVCCNALUnitArray := ⟨0, 14, 1, [2], [[0, 114]]⟩

/-- A NAL-unit array holding a single 2-byte SPS. -/
def spsArr : VVCCNALUnitArray := ⟨0, 15, 1, [2], [[0, 121]]⟩

/-- A freshly initialized record holding one VPS and one SPS — the minimal
record `vvcc_write` serializes successfully. -/
def r2rec : VVCDecoderConfigurationRecord := { vvcc_init with array := [vpsArr, spsArr] }

/-- The byte output of `vvcc_write` on `r2rec`. -/
def c2bytes : List Nat :=
  [255, 0, 4, 31, 1, 0, 0, 0, 0, 0, 0, 0, 0, 0, 0, 2,
   14, 0, 1, 0, 2, 0, 114, 15, 0, 1, 0, 2, 0, 121]

/-- A record whose arrays hold an SPS but no VPS. -/
def r3rec : VVCDecoderConfigurationRecord := { vvcc_init with array := [spsArr] }

/-- A record shaped like the output of the `gci_present` branch of
`vvcc_update_ptl` (`num_bytes_constraint_info = 10`). -/
def r9rec : VVCDecoderConfigurationRecord :=
  { vvcc_init with num_bytes_constraint_info := 10, array := [vpsArr, spsArr] }

/-- A length-prefixed buffer whose 32-bit prefix claims 1000 bytes while only
2 remain; the NAL type byte (`120 >> 3 = 15`) marks an SPS. -/
def c4psBuf : List Nat := [0, 0, 3, 232, 0, 120]

/-- Same over-claiming prefix, but the NAL type (`8 >> 3 = 1`) is a slice. -/
def c4sliceBuf : List Nat := [0, 0, 3, 232, 0, 8]

/-- A 10-byte VPS NAL unit (type byte `114 >> 3 = 14`). -/
def vps10 : List Nat := 0 :: 114 :: List.replicate 8 3

/-- A 20-byte SPS NAL unit (type byte `121 >> 3 = 15`). -/
def sps20 : List Nat := 0 :: 121 :: List.replicate 18 4

/-- A 100-byte slice NAL unit (type byte `8 >> 3 = 1`). -/
def slice100 : List Nat := 0 :: 8 :: List.replicate 98 2

/-- The S5 Annex-B input: start-code-prefixed VPS, SPS and slice. -/
def s5input : List Nat :=
  [0, 0, 0, 1] ++ vps10 ++ [0, 0, 0, 1] ++ sps20 ++ [0, 0, 0, 1] ++ slice100

/-- A PTL sublayer-section bitstream for `max_sub_layers_minus1 = 1`: the
present flag reads 0, the seven alignment bits follow, then the byte
`10101010` that a correct parser would never consume. -/
def c7bits : List Nat := [0, 0, 0, 0, 0, 0, 0, 0, 1, 0, 1, 0, 1, 0, 1, 0]

/-- A record with three sublayers for exercising the sublayer loop. -/
def c8v : VVCDecoderConfigurationRecord :=
  { vvcc_init with
    num_sublayers := 3
    general_level_idc := 7
    ptl_sublayer_level_present_flag := [1, 0, 0]
    sublayer_level_idc := [10, 20, 30] }

/-- An incoming PTL with three sublayers (flags all clear, level 55 at index 0). -/
def c8p : VVCCProfileTierLevel :=
  ⟨0, 0, 99, 0, 0, 0, 0, 0, [0, 0, 0], [55, 0, 0], 0, []⟩

/-- The record `vvcc_update_ptl c8v c8p` produces. -/
def c8w : VVCDecoderConfigurationRecord :=
  { c8v with
    general_level_idc := 99
    general_constraint_info := [0]
    ptl_sublayer_level_present_flag := [1, 0, 0]
    sublayer_level_idc := [55, 30, 30] }

/-- The PTL list for the aggregation witness: nondecreasing tiers 0, 1, 1. -/
def c1ptls : List VVCCProfileTierLevel :=
  [mkPtl 0 40 1 0, mkPtl 1 50 0 1, mkPtl 1 60 1 1]

/-- The record produced by aggregating `c1ptls` into a fresh record. -/
def c1w : VVCDecoderConfigurationRecord :=
  (vvcc_aggregate vvcc_init c1ptls).getD vvcc_init

/-- C10: for every input buffer of size less than 6 bytes, `ff_isom_write_vvcc`
returns `AVERROR_INVALIDDATA` and writes nothing to the sink, for every
continuation of the dispatch — in particular even when the first byte is 0x01,
because the size check precedes the vvcC pass-through check. -/
theorem c10_small_input (rest : List Nat → Except AVError (List Nat))
    (data : List Nat) (h : data.length < 6) :
    ff_isom_write_vvcc rest data = Except.error AVError.invalidData := by
  unfold ff_isom_write_vvcc
  rw [if_pos h]

/-- C10 witness: the one-byte input `[0x01]` is rejected although its first
byte is 0x01. -/
theorem c10_small_input_witness :
    ([1] : List Nat).length < 6 ∧ List.getD [1] 0 0 = 1 ∧
    ff_isom_write_vvcc (fun l => Except.ok l) [1] = Except.error AVError.invalidData :=
  ⟨by decide, by decide, c10_small_input (fun l => Except.ok l) [1] (by decide)⟩

/-- C6 counterexample: the 5-byte input `[1, 2, 3, 4, 5]` has first byte 0x01,
yet `ff_isom_write_vvcc` returns `AVERROR_INVALIDDATA` instead of writing it
through, because the size check comes first — so the claim fails for inputs of
size < 6. -/
theorem c6_counterexample :
    List.getD [1, 2, 3, 4, 5] 0 0 = 1 ∧
    ff_isom_write_vvcc (fun l => Except.ok l) [1, 2, 3, 4, 5] =
      Except.error AVError.invalidData :=
  ⟨rfl, rfl⟩

/-- C6 (amended): for every input buffer of size at least 6 whose first byte is
0x01, `ff_isom_write_vvcc` writes the entire input to the sink verbatim and
returns success, performing no Annex-B parsing (the result is independent of
the parsing continuation `rest`). -/
theorem c6_passthrough_amended (rest : List Nat → Except AVError (List Nat))
    (data : List Nat) (hlen : 6 ≤ data.length) (h1 : data.getD 0 0 = 1) :
    ff_isom_write_vvcc rest data = Except.ok data := by
  unfold ff_isom_write_vvcc
  rw [if_neg (by omega), if_pos h1]

/-- C6 witness: a 6-byte input starting with 0x01 passes through unchanged,
even under a continuation that would fail. -/
theorem c6_passthrough_amended_witness :
    6 ≤ ([1, 2, 3, 4, 5, 6] : List Nat).length ∧
    ff_isom_write_vvcc (fun _ => Except.error AVError.invalidData) [1, 2, 3, 4, 5, 6] =
      Except.ok [1, 2, 3, 4, 5, 6] :=
  ⟨by decide,
   c6_passthrough_amended (fun _ => Except.error AVError.invalidData)
     [1, 2, 3, 4, 5, 6] (by decide) (by decide)⟩

/-- C3: `vvcc_write` fails with `AVERROR_INVALIDDATA`, before emitting any
byte, whenever the arrays contain no VPS NAL unit, no SPS NAL unit, or the VPS
or SPS count exceeds `VVC_MAX_VPS_COUNT` / `VVC_MAX_SPS_COUNT`. -/
theorem c3_write_requires_vps_sps (v : VVCDecoderConfigurationRecord)
    (h : nal_type_count VVC_VPS_NUT v.array = 0 ∨
         VVC_MAX_VPS_COUNT < nal_type_count VVC_VPS_NUT v.array ∨
         nal_type_count VVC_SPS_NUT v.array = 0 ∨
         VVC_MAX_SPS_COUNT < nal_type_count VVC_SPS_NUT v.array) :
    vvcc_write v = Except.error AVError.invalidData := by
  unfold vvcc_write
  exact if_pos h

/-- C3 witness: a record holding an SPS but no VPS is rejected. -/
theorem c3_write_requires_vps_sps_witness :
    nal_type_count VVC_VPS_NUT r3rec.array = 0 ∧
    vvcc_write r3rec = Except.error AVError.invalidData :=
  ⟨by decide, c3_write_requires_vps_sps r3rec (Or.inl (by decide))⟩

/-- C7: evaluating the sublayer section of `vvcc_parse_ptl` on a stream whose
single present flag is 0 — the parser still consumes a full 8-bit
`sublayer_level_idc` (the byte `10101010`, value 170), ending at bit 16 instead
of the byte boundary at bit 8.  This exhibits the missing
`if (sublayer_level_present[i])` guard of the source (vvc.c:209-211). -/
theorem c7_unconditional_read_eval :
    vvcc_parse_ptl_sublayers ⟨c7bits, 0⟩ 1 = ([0], [170], ⟨c7bits, 16⟩) := rfl

/-- C9: a record carrying a general-constraint-info block
(`num_bytes_constraint_info = 10`, as produced by the `gci_present` branch of
`vvcc_update_ptl`) drives the constraint-info write of `vvcc_write`
(vvc.c:812-814) into undefined territory: the source shifts an `int` by 79 and
78 bits and emits 10 bytes of a 4-byte buffer, so no defined byte string — let
alone the claimed bit-concatenation — is produced. -/
theorem c9_constraint_write_eval :
    r9rec.num_bytes_constraint_info = 10 ∧ r9rec.ptl_present_flag = 1 ∧
    vvcc_write r9rec = Except.error AVError.undefinedBehavior :=
  ⟨rfl, rfl, rfl⟩

lemma annexb_loop_fuel_nil (fuel : Nat) : annexb_loop_fuel fuel [] = ([], 0, 0) := by
  cases fuel <;> simp [annexb_loop_fuel]

lemma annexb_loop_fuel_congr : ∀ (f1 f2 : Nat) (l : List Nat),
    l.length ≤ f1 → l.length ≤ f2 → annexb_loop_fuel f1 l = annexb_loop_fuel f2 l := by
  intro f1
  induction f1 with
  | zero =>
    intro f2 l h1 _
    have hnil : l = [] := List.eq_nil_of_length_eq_zero (by omega)
    subst hnil
    rw [annexb_loop_fuel_nil, annexb_loop_fuel_nil]
  | succ f1 ih =>
    intro f2 l h1 h2
    cases f2 with
    | zero =>
      have hnil : l = [] := List.eq_nil_of_length_eq_zero (by omega)
      subst hnil
      rw [annexb_loop_fuel_nil, annexb_loop_fuel_nil]
    | succ f2 =>
      simp only [annexb_loop_fuel]
      by_cases h4 : 4 < l.length
      · simp only [if_pos h4]
        rw [ih f2 ((l.drop 4).drop (min (rb32 l) (l.length - 4)))
          (by simp; omega) (by simp; omega)]
      · simp only [if_neg h4]

/-- One unfolding of the `ff_vvc_annexb2mp4` scanning loop, with the recursive
occurrence expressed through `annexb_loop` itself. -/
lemma annexb_loop_step (l : List Nat) :
    annexb_loop l =
      if 4 < l.length then
        let len := min (rb32 l) (l.length - 4)
        let typ := l.getD 5 0 / 8
        let rest := l.drop 4
        if is_ps_nal_type typ then
          let r := annexb_loop (rest.drop len)
          (r.1, r.2.1, r.2.2 + 1)
        else
          let r := annexb_loop (rest.drop len)
          (avio_wb32 len ++ rest.take len ++ r.1, 4 + len + r.2.1, r.2.2)
      else ([], 0, 0) := by
  by_cases h4 : 4 < l.length
  · obtain ⟨f, hf⟩ : ∃ f, l.length = f + 1 := ⟨l.length - 1, by omega⟩
    unfold annexb_loop
    conv_lhs => rw [hf]
    simp only [annexb_loop_fuel, if_pos h4]
    rw [annexb_loop_fuel_congr f ((l.drop 4).drop (min (rb32 l) (l.length - 4))).length
      ((l.drop 4).drop (min (rb32 l) (l.length - 4))) (by simp; omega) (le_refl _)]
  · unfold annexb_loop
    rw [if_neg h4]
    cases hL : l.length with
    | zero =>
      have hnil : l = [] := List.eq_nil_of_length_eq_zero hL
      subst hnil
      rw [annexb_loop_fuel_nil]
    | succ f =>
      simp only [annexb_loop_fuel, if_neg h4]

/-- C4 counterexample: a buffer whose 32-bit prefix claims 1000 bytes while
only 2 remain, carrying an SPS-type NAL.  The loop clips the length but —
because parameter-set NALs are filtered — emits nothing at all and only bumps
`ps_count`, so the clipped length is not emitted as a length prefix. -/
theorem c4_counterexample :
    c4psBuf.length - 4 < rb32 c4psBuf ∧
    annexb_loop c4psBuf = ([], 0, 1) := by
  constructor
  · decide
  · rfl

/-- C4 (amended): whenever the 4-byte length prefix at the head of the loop's
buffer claims more bytes than remain, the length is clipped to the remaining
bytes and no byte beyond the buffer is read: if the NAL's type is not
VPS/SPS/PPS the clipped length is emitted as its length prefix followed by
exactly the remaining bytes of the buffer, otherwise the NAL is dropped and
counted in `ps_count`; either way the loop then returns successfully. -/
theorem c4_clip_amended (l : List Nat) (h4 : 4 < l.length)
    (hover : l.length - 4 < rb32 l) :
    (is_ps_nal_type (l.getD 5 0 / 8) = false →
      annexb_loop l = (avio_wb32 (l.length - 4) ++ l.drop 4, l.length, 0)) ∧
    (is_ps_nal_type (l.getD 5 0 / 8) = true →
      annexb_loop l = ([], 0, 1)) := by
  have hmin : min (rb32 l) (l.length - 4) = l.length - 4 :=
    Nat.min_eq_right (Nat.le_of_lt hover)
  have hdrop : (l.drop 4).drop (l.length - 4) = [] := by
    apply List.drop_eq_nil_of_le
    simp
  have htake : (l.drop 4).take (l.length - 4) = l.drop 4 := by
    apply List.take_of_length_le
    simp
  constructor <;> intro hty <;>
    rw [annexb_loop_step] <;>
    simp only [if_pos h4, hmin, hdrop, htake, hty, Bool.false_eq_true, if_false, if_true,
      annexb_loop_fuel_nil, annexb_loop, List.length_nil, List.append_nil, Prod.mk.injEq]
  and_intros <;> first | omega | trivial

/-- C4 witness: an over-claiming prefix in front of a 2-byte slice-type NAL —
the emitted bytes are the clipped length 2 followed by exactly the 2 remaining
bytes, the return value is the 6 bytes written, and nothing is counted. -/
theorem c4_clip_amended_witness :
    4 < c4sliceBuf.length ∧ c4sliceBuf.length - 4 < rb32 c4sliceBuf ∧
    annexb_loop c4sliceBuf = ([0, 0, 0, 2, 0, 8], 6, 0) := by
  refine ⟨by decide, by decide, ?_⟩
  have h := (c4_clip_amended c4sliceBuf (by decide) (by decide)).1 (by decide)
  exact h.trans (by decide)

lemma vvcc_write_head (v : VVCDecoderConfigurationRecord) (bs : List Nat)
    (h : vvcc_write v = Except.ok bs) :
    bs.headD 0 = (v.lengthSizeMinusOne <<< 1 ||| v.ptl_present_flag ||| 0xf8) % 256 := by
  unfold vvcc_write at h
  dsimp only at h
  split at h
  · exact absurd h (by simp)
  · split at h
    · split at h
      · rw [Except.ok.injEq] at h
        subst h
        rfl
      · exact absurd h (by simp)
    · rw [Except.ok.injEq] at h
      subst h
      rfl

/-- C2 counterexample: on the freshly initialized record (defaults
`length_size_minus_one = 3`, `ptl_present_flag = 1`) holding one VPS and one
SPS, the first serialized byte is `0xF8 | 3 << 1 | 1 = 0xFF`, not the claimed
0xFB. -/
theorem c2_counterexample :
    r2rec.lengthSizeMinusOne = 3 ∧ r2rec.ptl_present_flag = 1 ∧
    vvcc_write r2rec = Except.ok c2bytes ∧
    c2bytes.headD 0 = 255 ∧ (255 : Nat) ≠ 0xFB :=
  ⟨rfl, rfl, rfl, rfl, by decide⟩

/-- C2 (amended): for every record on which `vvcc_write` succeeds (with the
in-range field values `length_size_minus_one < 4`, `ptl_present_flag < 2` of
the data model), the first emitted byte `b` satisfies `(b & 0xF8) = 0xF8`,
`(b >> 1) & 0x03 = length_size_minus_one` and `(b & 0x01) = ptl_present_flag`;
with the init defaults (`length_size_minus_one = 3`, `ptl_present_flag = 1`)
the first byte is 0xFF. -/
theorem c2_header_byte (v : VVCDecoderConfigurationRecord) (bs : List Nat)
    (h : vvcc_write v = Except.ok bs)
    (hl : v.lengthSizeMinusOne < 4) (hp : v.ptl_present_flag < 2) :
    bs.headD 0 &&& 0xF8 = 0xF8 ∧
    (bs.headD 0 >>> 1) &&& 3 = v.lengthSizeMinusOne ∧
    bs.headD 0 &&& 1 = v.ptl_present_flag ∧
    (v.lengthSizeMinusOne = 3 → v.ptl_present_flag = 1 → bs.headD 0 = 0xFF) := by
  have hb := vvcc_write_head v bs h
  rw [hb]
  interval_cases hv1 : v.lengthSizeMinusOne <;>
    interval_cases hv2 : v.ptl_present_flag <;>
      simp_all <;> decide

/-- C2 witness: the amended theorem applied to the minimal serializable record
with the init defaults. -/
theorem c2_header_byte_witness :
    c2bytes.headD 0 &&& 0xF8 = 0xF8 ∧
    (c2bytes.headD 0 >>> 1) &&& 3 = 3 ∧
    c2bytes.headD 0 &&& 1 = 1 ∧
    c2bytes.headD 0 = 0xFF := by
  have h := c2_header_byte r2rec c2bytes rfl (by decide) (by decide)
  exact ⟨h.1, h.2.1, h.2.2.1, h.2.2.2 rfl rfl⟩

lemma getD_set_ne (l : List Nat) (i j a : Nat) (h : i ≠ j) :
    (l.set i a).getD j 0 = l.getD j 0 := by
  simp [List.getD_eq_getElem?_getD, List.getElem?_set_ne h]

lemma getD_set_self (l : List Nat) (i a : Nat) (h : i < l.length) :
    (l.set i a).getD i 0 = a := by
  simp [List.getD_eq_getElem?_getD, List.getElem?_set_self h]

lemma sublayer_step_getD_ne (n g : Nat) (iP iL : List Nat)
    (s : List Nat × List Nat) (k j : Nat) (h : k ≠ j) :
    (sublayer_step n g iP iL s k).1.getD j 0 = s.1.getD j 0 ∧
    (sublayer_step n g iP iL s k).2.getD j 0 = s.2.getD j 0 := by
  unfold sublayer_step
  dsimp only
  refine ⟨getD_set_ne _ _ _ _ h, ?_⟩
  split_ifs <;> exact getD_set_ne _ _ _ _ h

lemma sublayer_step_len (n g : Nat) (iP iL : List Nat)
    (s : List Nat × List Nat) (k : Nat) :
    (sublayer_step n g iP iL s k).1.length = s.1.length ∧
    (sublayer_step n g iP iL s k).2.length = s.2.length := by
  unfold sublayer_step
  dsimp only
  refine ⟨List.length_set .., ?_⟩
  split_ifs <;> exact List.length_set ..

lemma sublayer_step_getD_self (n g : Nat) (iP iL : List Nat)
    (s : List Nat × List Nat) (k : Nat) (h1 : k < s.1.length) (h2 : k < s.2.length) :
    (sublayer_step n g iP iL s k).1.getD k 0 = s.1.getD k 0 ||| iP.getD k 0 ∧
    (sublayer_step n g iP iL s k).2.getD k 0 =
      (if (s.1.getD k 0 ||| iP.getD k 0) ≠ 0 then max (s.2.getD k 0) (iL.getD k 0)
       else if k = n - 1 then g else s.2.getD (k + 1) 0) := by
  unfold sublayer_step
  dsimp only
  refine ⟨getD_set_self _ _ _ h1, ?_⟩
  split_ifs <;> exact getD_set_self _ _ _ h2

lemma sublayer_go_untouched (n g : Nat) (iP iL : List Nat) :
    ∀ (k : Nat) (s : List Nat × List Nat) (j : Nat), k ≤ j →
      (sublayer_go n g iP iL k s).1.getD j 0 = s.1.getD j 0 ∧
      (sublayer_go n g iP iL k s).2.getD j 0 = s.2.getD j 0 := by
  intro k
  induction k with
  | zero => intro s j _; exact ⟨rfl, rfl⟩
  | succ k ih =>
    intro s j hj
    have hs := sublayer_step_getD_ne n g iP iL s k j (by omega)
    have hgo := ih (sublayer_step n g iP iL s k) j (by omega)
    exact ⟨hgo.1.trans hs.1, hgo.2.trans hs.2⟩

lemma sublayer_go_len (n g : Nat) (iP iL : List Nat) :
    ∀ (k : Nat) (s : List Nat × List Nat),
      (sublayer_go n g iP iL k s).1.length = s.1.length ∧
      (sublayer_go n g iP iL k s).2.length = s.2.length := by
  intro k
  induction k with
  | zero => intro s; exact ⟨rfl, rfl⟩
  | succ k ih =>
    intro s
    have hs := sublayer_step_len n g iP iL s k
    have hgo := ih (sublayer_step n g iP iL s k)
    exact ⟨hgo.1.trans hs.1, hgo.2.trans hs.2⟩

lemma sublayer_go_spec (n g : Nat) (iP iL : List Nat) :
    ∀ (k : Nat) (s : List Nat × List Nat) (i : Nat), i < k →
      k ≤ s.1.length → k ≤ s.2.length →
      ((sublayer_go n g iP iL k s).1.getD i 0 = s.1.getD i 0 ||| iP.getD i 0 ∧
       ((s.1.getD i 0 ||| iP.getD i 0) ≠ 0 →
          (sublayer_go n g iP iL k s).2.getD i 0 =
            max (s.2.getD i 0) (iL.getD i 0)) ∧
       ((s.1.getD i 0 ||| iP.getD i 0) = 0 →
          (sublayer_go n g iP iL k s).2.getD i 0 =
            if i = n - 1 then g
            else (sublayer_go n g iP iL k s).2.getD (i + 1) 0)) := by
  intro k
  induction k with
  | zero => intro s i hi _ _; omega
  | succ k ih =>
    intro s i hi hk1 hk2
    by_cases hik : i = k
    · subst hik
      have hunt := sublayer_go_untouched n g iP iL i (sublayer_step n g iP iL s i) i
        (le_refl i)
      have hunt1 := sublayer_go_untouched n g iP iL i (sublayer_step n g iP iL s i) (i + 1)
        (by omega)
      have hself := sublayer_step_getD_self n g iP iL s i (by omega) (by omega)
      have hne := sublayer_step_getD_ne n g iP iL s i (i + 1) (by omega)
      refine ⟨hunt.1.trans hself.1, ?_, ?_⟩ <;> intro hp
      · show (sublayer_go n g iP iL i (sublayer_step n g iP iL s i)).2.getD i 0 = _
        rw [hunt.2, hself.2, if_pos hp]
      · show (sublayer_go n g iP iL i (sublayer_step n g iP iL s i)).2.getD i 0 =
          if i = n - 1 then g
          else (sublayer_go n g iP iL i (sublayer_step n g iP iL s i)).2.getD (i + 1) 0
        rw [hunt.2, hself.2, if_neg (not_not_intro hp)]
        by_cases hin : i = n - 1
        · rw [if_pos hin, if_pos hin]
        · rw [if_neg hin, if_neg hin, hunt1.2, hne.2]
    · have hlen := sublayer_step_len n g iP iL s k
      have hih := ih (sublayer_step n g iP iL s k) i (by omega)
        (by omega) (by omega)
      have hne := sublayer_step_getD_ne n g iP iL s k i (by omega)
      rw [hne.1, hne.2] at hih
      exact hih

/-- C8: after every call to `vvcc_update_ptl`, for each sublayer index
`i ≤ num_sublayers - 2` (with the record's sublayer arrays at least
`num_sublayers - 1` long, as allocated by the parser): the present flag is the
OR of the record's previous flag and the incoming PTL's; when the resulting
flag is set, `sublayer_level_idc[i]` is the max of the previous and incoming
values; when it is clear, `sublayer_level_idc[i]` equals the updated
`general_level_idc` if `i = num_sublayers - 1` (a condition no loop index
satisfies) and otherwise equals the updated `sublayer_level_idc[i+1]`. -/
theorem c8_sublayer_update (v : VVCDecoderConfigurationRecord)
    (p : VVCCProfileTierLevel) (w : VVCDecoderConfigurationRecord)
    (h : vvcc_update_ptl v p = some w)
    (i : Nat) (hi : i + 2 ≤ v.num_sublayers)
    (hl1 : v.num_sublayers - 1 ≤ v.ptl_sublayer_level_present_flag.length)
    (hl2 : v.num_sublayers - 1 ≤ v.sublayer_level_idc.length) :
    w.ptl_sublayer_level_present_flag.getD i 0 =
      v.ptl_sublayer_level_present_flag.getD i 0 |||
        p.ptl_sublayer_level_present_flag.getD i 0 ∧
    (w.ptl_sublayer_level_present_flag.getD i 0 ≠ 0 →
      w.sublayer_level_idc.getD i 0 =
        max (v.sublayer_level_idc.getD i 0) (p.sublayer_level_idc.getD i 0)) ∧
    (w.ptl_sublayer_level_present_flag.getD i 0 = 0 →
      w.sublayer_level_idc.getD i 0 =
        if i = v.num_sublayers - 1 then w.general_level_idc
        else w.sublayer_level_idc.getD (i + 1) 0) := by
  unfold vvcc_update_ptl at h
  dsimp only at h
  by_cases hg : p.gci_present_flag ≠ 0
  · rw [if_pos hg] at h
    exact absurd h (by simp)
  · rw [if_neg hg] at h
    rw [Option.some.injEq] at h
    subst h
    have hspec := sublayer_go_spec v.num_sublayers
      (if v.general_tier_flag < p.tier_flag then p.general_level_idc
       else max v.general_level_idc p.general_level_idc)
      p.ptl_sublayer_level_present_flag p.sublayer_level_idc
      (v.num_sublayers - 1)
      (v.ptl_sublayer_level_present_flag, v.sublayer_level_idc)
      i (by omega) hl1 hl2
    dsimp only at hspec ⊢
    unfold sublayer_update
    rw [hspec.1]
    exact ⟨rfl, hspec.2.1, hspec.2.2⟩

/-- C8 witness: the theorem applied at index 0 of the concrete three-sublayer
update `vvcc_update_ptl c8v c8p`: the present flag stays 1 and the level
becomes `max 10 55 = 55`. -/
theorem c8_sublayer_update_witness :
    c8w.ptl_sublayer_level_present_flag.getD 0 0 = 1 ∧
    c8w.sublayer_level_idc.getD 0 0 = 55 := by
  have h := c8_sublayer_update c8v c8p c8w rfl 0 (by decide) (by decide) (by decide)
  exact ⟨h.1.trans (by decide), (h.2.1 (by decide)).trans (by decide)⟩

lemma run_tl_fst : ∀ (ptls : List VVCCProfileTierLevel) (s : Nat × Nat),
    (run_tl s ptls).1 = ptls.foldl (fun a p => max a p.tier_flag) s.1 := by
  intro ptls
  induction ptls with
  | nil => intro s; rfl
  | cons p r ih =>
    intro s
    exact ih (max s.1 p.tier_flag,
      if s.1 < p.tier_flag then p.general_level_idc else max s.2 p.general_level_idc)

lemma run_tl_fst_mono : ∀ (ptls : List VVCCProfileTierLevel) (s : Nat × Nat),
    s.1 ≤ (run_tl s ptls).1 := by
  intro ptls
  induction ptls with
  | nil => intro s; exact le_refl _
  | cons p r ih =>
    intro s
    exact le_trans (le_max_left s.1 p.tier_flag)
      (ih (max s.1 p.tier_flag,
        if s.1 < p.tier_flag then p.general_level_idc else max s.2 p.general_level_idc))

lemma run_tl_no_bump_level_mono : ∀ (ptls : List VVCCProfileTierLevel) (s : Nat × Nat),
    (run_tl s ptls).1 = s.1 → s.2 ≤ (run_tl s ptls).2 := by
  intro ptls
  induction ptls with
  | nil => intro s _; exact le_refl _
  | cons p r ih =>
    intro s hfix
    have hmono := run_tl_fst_mono r (max s.1 p.tier_flag,
      if s.1 < p.tier_flag then p.general_level_idc else max s.2 p.general_level_idc)
    have hfix2 : (run_tl (max s.1 p.tier_flag,
        if s.1 < p.tier_flag then p.general_level_idc else max s.2 p.general_level_idc) r).1
        = s.1 := hfix
    have hle : p.tier_flag ≤ s.1 := by omega
    have hif : (if s.1 < p.tier_flag then p.general_level_idc
        else max s.2 p.general_level_idc) = max s.2 p.general_level_idc :=
      if_neg (by omega)
    have hih := ih (max s.1 p.tier_flag,
      if s.1 < p.tier_flag then p.general_level_idc else max s.2 p.general_level_idc)
      (by rw [hfix2]; omega)
    have hgoal : (if s.1 < p.tier_flag then p.general_level_idc
        else max s.2 p.general_level_idc) ≤
        (run_tl (max s.1 p.tier_flag,
          if s.1 < p.tier_flag then p.general_level_idc else max s.2 p.general_level_idc)
          r).2 := hih
    show s.2 ≤ (run_tl (max s.1 p.tier_flag,
      if s.1 < p.tier_flag then p.general_level_idc else max s.2 p.general_level_idc) r).2
    omega

lemma run_tl_level_ge : ∀ (ptls : List VVCCProfileTierLevel) (s : Nat × Nat),
    ∀ p ∈ ptls, p.tier_flag = (run_tl s ptls).1 →
      p.general_level_idc ≤ (run_tl s ptls).2 := by
  intro ptls
  induction ptls with
  | nil => intro s p hp; exact absurd hp (List.not_mem_nil p)
  | cons q r ih =>
    intro s p hp htier
    rcases List.mem_cons.mp hp with hpq | hpr
    · subst hpq
      have htier2 : p.tier_flag = (run_tl (max s.1 p.tier_flag,
          if s.1 < p.tier_flag then p.general_level_idc else max s.2 p.general_level_idc)
          r).1 := htier
      have hfst := run_tl_fst_mono r (max s.1 p.tier_flag,
        if s.1 < p.tier_flag then p.general_level_idc else max s.2 p.general_level_idc)
      have hfst2 : max s.1 p.tier_flag ≤ (run_tl (max s.1 p.tier_flag,
          if s.1 < p.tier_flag then p.general_level_idc else max s.2 p.general_level_idc)
          r).1 := hfst
      by_cases hsame : (run_tl (max s.1 p.tier_flag,
          if s.1 < p.tier_flag then p.general_level_idc else max s.2 p.general_level_idc)
          r).1 = max s.1 p.tier_flag
      · have hmono := run_tl_no_bump_level_mono r (max s.1 p.tier_flag,
          if s.1 < p.tier_flag then p.general_level_idc else max s.2 p.general_level_idc)
          hsame
        have hfirst : p.general_level_idc ≤ (if s.1 < p.tier_flag then p.general_level_idc
            else max s.2 p.general_level_idc) := by
          split_ifs <;> omega
        show p.general_level_idc ≤ (run_tl (max s.1 p.tier_flag,
          if s.1 < p.tier_flag then p.general_level_idc else max s.2 p.general_level_idc)
          r).2
        omega
      · omega
    · exact ih (max s.1 q.tier_flag,
        if s.1 < q.tier_flag then q.general_level_idc else max s.2 q.general_level_idc)
        p hpr htier

lemma level_max_foldl : ∀ (l : List VVCCProfileTierLevel) (a : Nat),
    l.foldl (fun a p => max a p.general_level_idc) a = max a (level_max l) := by
  intro l
  induction l with
  | nil =>
    intro a
    simp only [List.foldl_nil, level_max, Nat.max_zero]
  | cons p r ih =>
    intro a
    simp only [List.foldl_cons, level_max]
    rw [ih (max a p.general_level_idc), ih (max 0 p.general_level_idc)]
    have h1 : level_max r = r.foldl (fun a p => max a p.general_level_idc) 0 := rfl
    omega

lemma run_tl_level_le : ∀ (ptls : List VVCCProfileTierLevel) (s : Nat × Nat),
    (run_tl s ptls).2 ≤ max s.2 (level_max ptls) := by
  intro ptls
  induction ptls with
  | nil => intro s; simp [run_tl]
  | cons q r ih =>
    intro s
    have hih := ih (max s.1 q.tier_flag,
      if s.1 < q.tier_flag then q.general_level_idc else max s.2 q.general_level_idc)
    have hih2 : (run_tl (max s.1 q.tier_flag,
        if s.1 < q.tier_flag then q.general_level_idc else max s.2 q.general_level_idc) r).2 ≤
        max (if s.1 < q.tier_flag then q.general_level_idc else max s.2 q.general_level_idc)
          (level_max r) := hih
    have hlm : level_max (q :: r) = max (max 0 q.general_level_idc) (level_max r) := by
      show (q :: r).foldl (fun a p => max a p.general_level_idc) 0 = _
      rw [List.foldl_cons, level_max_foldl]
    show (run_tl (max s.1 q.tier_flag,
      if s.1 < q.tier_flag then q.general_level_idc else max s.2 q.general_level_idc) r).2 ≤
      max s.2 (level_max (q :: r))
    have hi : (if s.1 < q.tier_flag then q.general_level_idc
        else max s.2 q.general_level_idc) ≤ max s.2 q.general_level_idc := by
      split_ifs <;> omega
    omega

lemma foldl_land_zero (f : VVCCProfileTierLevel → Nat) :
    ∀ (l : List VVCCProfileTierLevel),
      l.foldl (fun a p => a &&& f p) 0 = 0 := by
  intro l
  induction l with
  | nil => rfl
  | cons p r ih =>
    simp only [List.foldl_cons, Nat.zero_and]
    exact ih

lemma vvcc_aggregate_proj : ∀ (ptls : List VVCCProfileTierLevel)
    (v w : VVCDecoderConfigurationRecord),
    (∀ p ∈ ptls, p.gci_present_flag = 0) →
    vvcc_aggregate v ptls = some w →
    ((w.general_tier_flag, w.general_level_idc) =
      run_tl (v.general_tier_flag, v.general_level_idc) ptls ∧
     w.ptl_frame_only_constraint_flag =
      ptls.foldl (fun a p => a &&& p.ptl_frame_only_constraint_flag)
        v.ptl_frame_only_constraint_flag ∧
     w.ptl_multilayer_enabled_flag =
      ptls.foldl (fun a p => a &&& p.ptl_multilayer_enabled_flag)
        v.ptl_multilayer_enabled_flag) := by
  intro ptls
  induction ptls with
  | nil =>
    intro v w _ hw
    have hvw : v = w := by
      have : some v = some w := hw
      exact Option.some.injEq v w ▸ this
    subst hvw
    exact ⟨rfl, rfl, rfl⟩
  | cons p r ih =>
    intro v w hg hw
    have hp0 : p.gci_present_flag = 0 := hg p (List.mem_cons_self p r)
    unfold vvcc_aggregate at hw
    rw [List.foldlM_cons] at hw
    unfold vvcc_update_ptl at hw
    dsimp only at hw
    rw [if_neg (not_not_intro hp0)] at hw
    exact ih _ w (fun q hq => hg q (List.mem_cons_of_mem p hq)) hw

/-- C1 counterexample.  Two concrete runs against a freshly initialized record
falsify the claim: (a) a single PTL with `frame_only = multilayer = 1` leaves
the record's flags 0 (the claimed AND is 1), because `vvcc_init` starts them at
0 and `vvcc_update_ptl` ANDs into that; (b) the order `(tier 1, level 50)` then
`(tier 0, level 100)` yields `general_level_idc = 100` although the only PTL at
the max tier 1 has level 50 — the claimed `max { level_i : tier_i = max_tier }`
does not hold in every order. -/
theorem c1_counterexample :
    (vvcc_aggregate vvcc_init [mkPtl 0 5 1 1]).map
        (fun w => w.ptl_frame_only_constraint_flag) = some 0 ∧
    (vvcc_aggregate vvcc_init [mkPtl 0 5 1 1]).map
        (fun w => w.ptl_multilayer_enabled_flag) = some 0 ∧
    (mkPtl 0 5 1 1).ptl_frame_only_constraint_flag = 1 ∧
    (mkPtl 0 5 1 1).ptl_multilayer_enabled_flag = 1 ∧
    (vvcc_aggregate vvcc_init [mkPtl 1 50 0 0, mkPtl 0 100 0 0]).map
        (fun w => (w.general_tier_flag, w.general_level_idc)) = some (1, 100) ∧
    (mkPtl 1 50 0 0).tier_flag = 1 ∧ (mkPtl 1 50 0 0).general_level_idc = 50 ∧
    (mkPtl 0 100 0 0).tier_flag = 0 ∧ (50 : Nat) ≠ 100 :=
  ⟨rfl, rfl, rfl, rfl, rfl, rfl, rfl, rfl, by decide⟩

/-- C1 (amended): aggregating PTLs `P1 … Pk` (each without
general-constraint info, whose record update is well defined) into a freshly
initialized record gives: `general_tier_flag = max(tier_i)` (0 for `k = 0`), in
any order; `frame_only_constraint` and `multilayer_enabled` are always 0 — the
AND-aggregation includes the freshly initialized record's 0 — rather than
`AND(flag_i)`; and `general_level_idc` lies between
`max { level_i : tier_i = max_tier }` and `max(level_i)` but depends on the
order of addition, so only those bounds hold in general. -/
theorem c1_aggregate_amended (ptls : List VVCCProfileTierLevel)
    (w : VVCDecoderConfigurationRecord)
    (hg : ∀ p ∈ ptls, p.gci_present_flag = 0)
    (hw : vvcc_aggregate vvcc_init ptls = some w) :
    w.general_tier_flag = ptls.foldl (fun a p => max a p.tier_flag) 0 ∧
    w.ptl_frame_only_constraint_flag = 0 ∧
    w.ptl_multilayer_enabled_flag = 0 ∧
    (∀ p ∈ ptls, p.tier_flag = w.general_tier_flag →
      p.general_level_idc ≤ w.general_level_idc) ∧
    w.general_level_idc ≤ level_max ptls := by
  have hproj := vvcc_aggregate_proj ptls vvcc_init w hg hw
  have hpair := hproj.1
  have hfst : w.general_tier_flag = (run_tl (0, 0) ptls).1 := by
    rw [show vvcc_init.general_tier_flag = 0 from rfl,
      show vvcc_init.general_level_idc = 0 from rfl] at hpair
    exact congrArg Prod.fst hpair
  have hsnd : w.general_level_idc = (run_tl (0, 0) ptls).2 := by
    rw [show vvcc_init.general_tier_flag = 0 from rfl,
      show vvcc_init.general_level_idc = 0 from rfl] at hpair
    exact congrArg Prod.snd hpair
  refine ⟨?_, ?_, ?_, ?_, ?_⟩
  · rw [hfst, run_tl_fst]
  · rw [hproj.2.1]
    exact foldl_land_zero (fun p => p.ptl_frame_only_constraint_flag) ptls
  · rw [hproj.2.2]
    exact foldl_land_zero (fun p => p.ptl_multilayer_enabled_flag) ptls
  · intro p hp htier
    rw [hsnd]
    exact run_tl_level_ge ptls (0, 0) p hp (by rw [← hfst]; exact htier)
  · rw [hsnd]
    have h := run_tl_level_le ptls (0, 0)
    omega

/-- C1 witness: aggregating the three PTLs `(tier 0, level 40, fo 1, ml 0)`,
`(tier 1, level 50, fo 0, ml 1)`, `(tier 1, level 60, fo 1, ml 1)`: the tier is
1, both AND flags are 0, and the level 60 satisfies the bounds. -/
theorem c1_aggregate_amended_witness :
    c1w.general_tier_flag = 1 ∧
    c1w.ptl_frame_only_constraint_flag = 0 ∧
    c1w.ptl_multilayer_enabled_flag = 0 ∧
    (mkPtl 1 60 1 1).general_level_idc ≤ c1w.general_level_idc ∧
    c1w.general_level_idc ≤ level_max c1ptls := by
  have h := c1_aggregate_amended c1ptls c1w (by decide) rfl
  exact ⟨h.1.trans (by decide), h.2.1, h.2.2.1,
    h.2.2.2.1 (mkPtl 1 60 1 1) (by decide) (by decide), h.2.2.2.2⟩

lemma avio_wb32_length (v : Nat) : (avio_wb32 v).length = 4 := rfl

lemma rb32_wb32_append (v : Nat) (t : List Nat) :
    rb32 (avio_wb32 v ++ t) = v % 2 ^ 32 := by
  show rb32 (v / 2 ^ 24 % 256 :: v / 2 ^ 16 % 256 :: v / 2 ^ 8 % 256 :: v % 256 :: t) =
    v % 2 ^ 32
  unfold rb32
  simp only [List.getD_cons_zero, List.getD_cons_succ]
  omega

lemma getD5_chunk (nal t : List Nat) (h : 2 ≤ nal.length) :
    (avio_wb32 nal.length ++ (nal ++ t)).getD 5 0 = nal.getD 1 0 := by
  show (_ :: _ :: _ :: _ :: (nal ++ t)).getD 5 0 = nal.getD 1 0
  simp only [List.getD_cons_succ]
  rw [List.getD_eq_getElem?_getD, List.getElem?_append_left (by omega),
    ← List.getD_eq_getElem?_getD]

lemma annexb_loop_mp4 : ∀ (nals : List (List Nat)),
    (∀ nal ∈ nals, 2 ≤ nal.length ∧ nal.length < 2 ^ 32) →
    annexb_loop (mp4_concat nals) =
      (mp4_concat (nals.filter (fun nal => !is_ps_nal_type (nal.getD 1 0 / 8))),
       (mp4_concat (nals.filter (fun nal => !is_ps_nal_type (nal.getD 1 0 / 8)))).length,
       (nals.filter (fun nal => is_ps_nal_type (nal.getD 1 0 / 8))).length) := by
  intro nals
  induction nals with
  | nil => intro _; rfl
  | cons nal rest ih =>
    intro hn
    have hnal := hn nal (List.mem_cons_self nal rest)
    have hrest : ∀ x ∈ rest, 2 ≤ x.length ∧ x.length < 2 ^ 32 :=
      fun x hx => hn x (List.mem_cons_of_mem nal hx)
    have hchunk : mp4_concat (nal :: rest) =
        avio_wb32 nal.length ++ (nal ++ mp4_concat rest) := by
      show avio_wb32 nal.length ++ nal ++ mp4_concat rest = _
      rw [List.append_assoc]
    rw [hchunk, annexb_loop_step]
    have h4 : 4 < (avio_wb32 nal.length ++ (nal ++ mp4_concat rest)).length := by
      simp only [List.length_append, avio_wb32_length]
      omega
    rw [if_pos h4]
    dsimp only
    have hm : min (rb32 (avio_wb32 nal.length ++ (nal ++ mp4_concat rest)))
        ((avio_wb32 nal.length ++ (nal ++ mp4_concat rest)).length - 4) = nal.length := by
      rw [rb32_wb32_append, Nat.mod_eq_of_lt hnal.2]
      simp only [List.length_append, avio_wb32_length]
      omega
    rw [hm, getD5_chunk _ _ hnal.1,
      List.drop_left' (show (avio_wb32 nal.length).length = 4 from rfl),
      List.take_left, List.drop_left, ih hrest]
    by_cases hps : is_ps_nal_type (nal.getD 1 0 / 8)
    · rw [if_pos hps]
      rw [List.filter_cons_of_neg (by simpa using hps), List.filter_cons_of_pos (by simpa using hps)]
      rw [List.length_cons]
    · have hps2 : is_ps_nal_type (nal.getD 1 0 / 8) = false := by
        simpa using hps
      rw [if_neg hps]
      rw [List.filter_cons_of_pos (by simpa using hps2), List.filter_cons_of_neg (by simpa using hps2)]
      simp only [Prod.mk.injEq]
      refine ⟨rfl, ?_, trivial⟩
      show 4 + nal.length + (mp4_concat _).length =
        (avio_wb32 nal.length ++ nal ++ mp4_concat _).length
      simp only [List.length_append, avio_wb32_length]

/-- C5: for every Annex-B input whose start-code conversion yields the
length-prefixed concatenation of NAL units `nals` (each at least 2 bytes and
shorter than 2^32), `ff_vvc_annexb2mp4` with `filter_ps` drops every NAL of
type VPS/SPS/PPS from the output and counts it in `ps_count`, emits every other
NAL as a 4-byte big-endian length followed by its bytes unchanged, and returns
the total number of bytes written. -/
theorem c5_filter_ps (input : List Nat) (nals : List (List Nat))
    (hconv : ff_avc_parse_nal_units_buf input = some (mp4_concat nals))
    (hn : ∀ nal ∈ nals, 2 ≤ nal.length ∧ nal.length < 2 ^ 32) :
    ff_vvc_annexb2mp4_filter input =
      some (mp4_concat (nals.filter (fun nal => !is_ps_nal_type (nal.getD 1 0 / 8))),
            (mp4_concat (nals.filter (fun nal => !is_ps_nal_type (nal.getD 1 0 / 8)))).length,
            (nals.filter (fun nal => is_ps_nal_type (nal.getD 1 0 / 8))).length) := by
  unfold ff_vvc_annexb2mp4_filter
  rw [hconv]
  show some (annexb_loop (mp4_concat nals)) = _
  rw [annexb_loop_mp4 nals hn]

set_option maxRecDepth 8000 in
/-- C5 witness: the S5 scenario — a 10-byte VPS, a 20-byte SPS and a 100-byte
slice: the output is `00 00 00 64` followed by the slice, `ps_count` is 2 and
the return value is 104. -/
theorem c5_filter_ps_witness :
    ff_vvc_annexb2mp4_filter s5input =
      some ([0, 0, 0, 100] ++ slice100, 104, 2) := by
  have h := c5_filter_ps s5input [vps10, sps20, slice100] rfl (by decide)
  exact h.trans (by rfl)
